import Mathlib

/-!
Verification of the ThirteenLabs recorder page (the VideoRecorder component)
and the frontend polling utility (frontend/lib/api.ts), as a shallow
embedding in Lean.  Component state is a `Session` record mirroring the
React state hooks and refs; the browser media primitives (image decoding,
the media encoder, the WASM codec engine, wall-clock time) are abstracted
as explicit parameters.
-/

namespace ThirteenLabs

/-! ## String helpers modelling the JavaScript built-ins used by the component -/

/-- Model of the JavaScript call s.padStart(2, c0) where c0 is the zero
character: left-pad to length 2. -/
def padStart2 (s : String) : String :=
  if s.length < 2 then String.mk (List.replicate (2 - s.length) '0') ++ s else s

/-- Two decimal digits of a natural number below 100 (tens digit, ones digit). -/
def pad2ch (n : Nat) : List Char :=
  [Nat.digitChar (n / 10), Nat.digitChar (n % 10)]

/-- Three decimal digits of a natural number below 1000. -/
def pad3ch (n : Nat) : List Char :=
  [Nat.digitChar (n / 100), Nat.digitChar (n / 10 % 10), Nat.digitChar (n % 10)]

/-- Four decimal digits of a natural number below 10000. -/
def pad4ch (n : Nat) : List Char :=
  [Nat.digitChar (n / 1000), Nat.digitChar (n / 100 % 10),
   Nat.digitChar (n / 10 % 10), Nat.digitChar (n % 10)]

/-- The character substitution performed by .replace with a global colon
pattern and a dash replacement: each colon becomes a dash. -/
def colonToDash (c : Char) : Char :=
  if c = ':' then '-' else c

/-- A calendar instant as exposed by the JavaScript Date object (UTC fields). -/
structure DateTime where
  year : Nat
  month : Nat
  day : Nat
  hour : Nat
  minute : Nat
  second : Nat
  millis : Nat
deriving DecidableEq

/-- Model of Date.prototype.toISOString as a character list:
YYYY-MM-DDTHH:MM:SS.mmmZ. -/
def toISOChars (d : DateTime) : List Char :=
  pad4ch d.year ++ '-' :: pad2ch d.month ++ '-' :: pad2ch d.day ++
  'T' :: pad2ch d.hour ++ ':' :: pad2ch d.minute ++ ':' :: pad2ch d.second ++
  '.' :: pad3ch d.millis ++ ['Z']

/-- The download filename built in createVideoBlob: the first 19 characters
of the ISO string (slice(0, 19)), with every colon replaced by a dash,
wrapped in the recorded_video_ prefix and the .mp4 extension. -/
def recordedVideoFilename (d : DateTime) : String :=
  String.mk (("recorded_video_").data ++
    ((toISOChars d).take 19).map colonToDash ++ (".mp4").data)

/-! ## Component state (the React useState hooks and refs of VideoRecorder) -/

/-- Phase of the MediaRecorder object held in mediaRecorderRef. -/
inductive RecorderPhase
  | recording
  | stopping
  | inactive
deriving DecidableEq

/-- The VideoRecorder component state: one field per useState hook plus the
refs that carry session data (recordedChunksRef, startTimeRef,
recordingIntervalRef, mediaRecorderRef).  Chunks are modelled by their byte
sizes; the interval timer by a flag. -/
structure Session where
  status : String
  frameCount : Nat
  recordingTime : String
  fileSize : String
  isConnected : Bool
  isRecording : Bool
  showDownload : Bool
  conversionProgress : Nat
  conversionStatus : String
  downloadUrl : Option (List Nat)
  downloadFilename : String
  recordedChunks : List Nat
  recorderPhase : Option RecorderPhase
  intervalActive : Bool
  startTime : Nat
deriving DecidableEq

/-- The initial component state (the useState defaults and ref initial values). -/
def initialSession : Session :=
  { status := "Connecting..."
    frameCount := 0
    recordingTime := "00:00"
    fileSize := "0 MB"
    isConnected := false
    isRecording := false
    showDownload := false
    conversionProgress := 0
    conversionStatus := "Processing..."
    downloadUrl := none
    downloadFilename := ""
    recordedChunks := []
    recorderPhase := none
    intervalActive := false
    startTime := 0 }

/-! ## Recording time display (updateRecordingTime) -/

/-- The MM:SS string computed by updateRecordingTime from the elapsed
milliseconds: minutes = elapsed / 60000, seconds = (elapsed % 60000) / 1000,
each rendered with padStart(2, zero). -/
def recordingTimeDisplay (elapsed : Nat) : String :=
  padStart2 (toString (elapsed / 60000)) ++ ":" ++
  padStart2 (toString (elapsed % 60000 / 1000))

/-- updateRecordingTime: returns unchanged when startTimeRef is unset (0),
otherwise sets the recording-time display from the elapsed wall time. -/
def updateRecordingTime (nowMs : Nat) (s : Session) : Session :=
  if s.startTime = 0 then s
  else { s with recordingTime := recordingTimeDisplay (nowMs - s.startTime) }

/-- Definition following the claim wording only: elapsed wall time rounded
to the nearest second (ties upward), rendered MM:SS zero-padded. -/
def specNearestSecondDisplay (elapsed : Nat) : String :=
  padStart2 (toString ((elapsed + 500) / 1000 / 60)) ++ ":" ++
  padStart2 (toString ((elapsed + 500) / 1000 % 60))

/-! ## File size display (updateFileSize) -/

/-- Sum of the buffered chunk sizes, as computed by the reduce call in
updateFileSize. -/
def sumChunks (chunks : List Nat) : Nat :=
  chunks.foldl (fun size chunk => size + chunk) 0

/-- Model of (totalSize / (1024*1024)).toFixed(2): the exact rational
totalSize / 2^20 rounded to the nearest hundredth, ties upward (the
binary64 division by a power of two is exact for all realistic sizes, and
toFixed picks the closest integer numerator, the larger one on a tie),
rendered with exactly two decimal places. -/
def toFixed2MB (totalSize : Nat) : String :=
  toString ((totalSize * 200 + 1048576) / 2097152 / 100) ++ "." ++
  String.mk (pad2ch ((totalSize * 200 + 1048576) / 2097152 % 100))

/-- updateFileSize: recompute the display from the buffered chunks. -/
def updateFileSize (s : Session) : Session :=
  { s with fileSize := toFixed2MB (sumChunks s.recordedChunks) ++ " MB" }

/-- The ondataavailable handler: a chunk with positive size is pushed onto
recordedChunksRef and the size display updated; an empty chunk is dropped
with no update. -/
def onDataAvailable (s : Session) (size : Nat) : Session :=
  if 0 < size then
    updateFileSize { s with recordedChunks := s.recordedChunks ++ [size] }
  else s

/-- Processing a sequence of arriving chunks in order. -/
def processChunks (s : Session) (sizes : List Nat) : Session :=
  sizes.foldl onDataAvailable s

/-! ## startRecording and stopRecording -/

/-- startRecording: requires an open connection and a mounted canvas;
clears the chunk buffer, records the start time and enters the recording
state; if the MediaRecorder constructor throws (unsupported codec), the
catch block reverts isRecording. -/
def startRecording (nowMs : Nat) (canvasMounted codecSupported : Bool)
    (s : Session) : Session :=
  if s.isConnected = false ∨ canvasMounted = false then s
  else
    let s1 := { s with recordedChunks := [], isRecording := true, startTime := nowMs }
    if codecSupported then
      { s1 with recorderPhase := some RecorderPhase.recording,
                intervalActive := true, status := "Recording..." }
    else
      { s1 with isRecording := false }

/-- stopRecording: returns immediately when not recording; otherwise leaves
the recording state, issues stop() on the MediaRecorder when it is in its
recording state, clears the interval timer and sets the status label. -/
def stopRecording (s : Session) : Session :=
  if s.isRecording = false then s
  else
    { s with
      isRecording := false
      recorderPhase :=
        match s.recorderPhase with
        | some RecorderPhase.recording => some RecorderPhase.stopping
        | r => r
      intervalActive := false
      status := "Recording stopped" }

/-! ## Frame channel (handleFrame / drawFrame) -/

/-- The canvas element: fixed dimensions from the JSX (width 300,
height 300) and the content last painted onto it, as the source data URL
and the destination rectangle of drawImage. -/
structure Rect where
  x : ℚ
  y : ℚ
  w : ℚ
  h : ℚ
deriving DecidableEq

structure Canvas where
  width : ℚ
  height : ℚ
  painted : Option (String × Rect)
deriving DecidableEq

/-- Canvas width attribute in the JSX. -/
def videoCanvasWidth : ℚ := 300

/-- Canvas height attribute in the JSX. -/
def videoCanvasHeight : ℚ := 300

/-- The ordered data-URL candidates built in drawFrame for a payload:
bitmap, then JPEG, then PNG. -/
def frameFormats (payload : String) : List String :=
  ["data:image/bmp;base64," ++ payload,
   "data:image/jpeg;base64," ++ payload,
   "data:image/png;base64," ++ payload]

/-- The onerror chain of drawFrame: try each candidate source in order,
returning the first one the decoder accepts together with the natural
width and height of the decoded image; none when every format fails. -/
def tryFormats (decode : String → Option (ℚ × ℚ)) :
    List String → Option (String × ℚ × ℚ)
  | [] => none
  | f :: rest =>
    match decode f with
    | some wh => some (f, wh)
    | none => tryFormats decode rest

/-- The destination rectangle computed in the onload handler: start from
the full canvas, shrink one side by the image aspect ratio, and centre. -/
def paintRect (canvasW canvasH imgW imgH : ℚ) : Rect :=
  let r := imgW / imgH
  let drawWidth := if r > 1 then canvasW else canvasH * r
  let drawHeight := if r > 1 then canvasW / r else canvasH
  { x := (canvasW - drawWidth) / 2
    y := (canvasH - drawHeight) / 2
    w := drawWidth
    h := drawHeight }

/-- drawFrame: try the format candidates in order; on the first success,
clear the canvas and paint the image into the computed rectangle; when all
fail, log to the console (the returned flag) and leave the canvas as it
was. -/
def drawFrame (decode : String → Option (ℚ × ℚ)) (c : Canvas)
    (payload : String) : Canvas × Bool :=
  match tryFormats decode (frameFormats payload) with
  | some (src, wh) =>
    ({ c with painted := some (src, paintRect c.width c.height wh.1 wh.2) }, false)
  | none => (c, true)

/-- handleFrame: increment the frame counter, then draw the payload. -/
def handleFrame (decode : String → Option (ℚ × ℚ)) (s : Session) (c : Canvas)
    (payload : String) : Session × Canvas × Bool :=
  ({ s with frameCount := s.frameCount + 1 },
   (drawFrame decode c payload).1, (drawFrame decode c payload).2)

/-! ## Transcode stage (createVideoBlob) -/

/-- The codec engine held in ffmpegRef once load() succeeded: whether the
fixed command pipeline raises on this job, and the bytes found at the
output path afterwards. -/
structure FFmpegEngine where
  execOutcome : Except String Unit
  outputBytes : List Nat

/-- Virtual-filesystem name the recorded container is written to. -/
def inputFilename : String := "input.webm"

/-- Virtual-filesystem name the transcoded file is read from. -/
def outputFilename : String := "output.mp4"

/-- The argument vector of the single exec call in createVideoBlob. -/
def ffmpegArgs : List String :=
  ["-i", "input.webm", "-c:v", "libx264", "-preset", "fast",
   "-crf", "23", "-c:a", "aac", "-b:a", "128k", "output.mp4"]

/-- Result of one createVideoBlob run: the new component state plus the
trace of virtual-filesystem writes and reads and of exec invocations. -/
structure TranscodeOutcome where
  session : Session
  vfsWrites : List (String × List Nat)
  vfsReads : List String
  execCalls : List (List String)
deriving DecidableEq

/-- createVideoBlob: show the conversion panel, build the input blob from
the buffered chunks, and run the fixed pipeline.  When the engine is
missing or not loaded the thrown engine-not-loaded error lands in the
catch block; when exec raises, likewise; otherwise the output file is read
back, wrapped in a blob, and the download URL, the timestamped filename
and the success status are set. -/
def createVideoBlob (ffmpeg : Option FFmpegEngine) (ffmpegLoaded : Bool)
    (now : DateTime) (s : Session) : TranscodeOutcome :=
  let s0 := { s with showDownload := true,
                     conversionStatus := "Processing video...",
                     conversionProgress := 0 }
  let webmBlob := s.recordedChunks
  match ffmpeg, ffmpegLoaded with
  | some engine, true =>
    match engine.execOutcome with
    | Except.ok _ =>
      { session :=
          { s0 with downloadUrl := some engine.outputBytes
                    downloadFilename := recordedVideoFilename now
                    conversionStatus := "MP4 video ready for download!"
                    conversionProgress := 100
                    status := "Video ready for download" }
        vfsWrites := [(inputFilename, webmBlob)]
        vfsReads := [outputFilename]
        execCalls := [ffmpegArgs] }
    | Except.error _ =>
      { session := { s0 with conversionStatus := "Error converting video. Please try again." }
        vfsWrites := [(inputFilename, webmBlob)]
        vfsReads := []
        execCalls := [ffmpegArgs] }
  | _, _ =>
    { session := { s0 with conversionStatus := "Error converting video. Please try again." }
      vfsWrites := []
      vfsReads := []
      execCalls := [] }

/-- The input/output virtual-filesystem pair used by transcode job number
jobIndex: in createVideoBlob both names are string literals, so the pair
does not depend on which job is running. -/
def jobVfsFilenames (_jobIndex : Nat) : String × String :=
  (inputFilename, outputFilename)

/-- The asynchronous tail of MediaRecorder.stop(): ondataavailable fires
once more with the final chunk, then onstop runs createVideoBlob. -/
def encoderStopFlush (ffmpeg : Option FFmpegEngine) (ffmpegLoaded : Bool)
    (now : DateTime) (s : Session) (finalChunk : Nat) : TranscodeOutcome :=
  createVideoBlob ffmpeg ffmpegLoaded now (onDataAvailable s finalChunk)

/-- downloadVideo: when a URL exists, a temporary anchor is clicked; the
component state is untouched.  Returns the state and whether a save was
triggered. -/
def downloadVideo (s : Session) : Session × Bool :=
  (s, s.downloadUrl.isSome)

/-! ## Status polling (pollTaskStatus in frontend/lib/api.ts) -/

/-- A task status as returned by the status endpoint. -/
inductive TaskStatus
  | pending
  | completed
  | failed (err : Option String)
deriving DecidableEq

/-- One checkStatus call: a status response, an axios 404, or another error. -/
inductive CheckOutcome
  | ok (st : TaskStatus)
  | http404
  | otherError (msg : String)
deriving DecidableEq

/-- How one pollTaskStatus call ends: the resolved result, or one of the
thrown errors. -/
inductive PollResult (α : Type)
  | success (r : α)
  | taskFailed (msg : String)
  | taskNotFound
  | otherError (msg : String)
  | timedOut
deriving BEq

/-- The while loop of pollTaskStatus, by the number of attempts still
allowed (maxAttempts minus the attempts counter); check gives the outcome
of the k-th checkStatus call and res the value getResult resolves to.
Returns the outcome and the number of status checks performed.  A
completed status returns the result; a failed status throws (the catch
block re-throws it, as it is not an axios 404); a 404 from checkStatus
throws the not-found error; any other error propagates; only a pending
status waits for the fixed interval and loops. -/
def pollAux (check : Nat → CheckOutcome) (res : α) :
    Nat → Nat → PollResult α × Nat
  | _, 0 => (PollResult.timedOut, 0)
  | attempts, remaining + 1 =>
    match check attempts with
    | CheckOutcome.http404 => (PollResult.taskNotFound, 1)
    | CheckOutcome.otherError m => (PollResult.otherError m, 1)
    | CheckOutcome.ok TaskStatus.completed => (PollResult.success res, 1)
    | CheckOutcome.ok (TaskStatus.failed e) =>
      (PollResult.taskFailed (e.getD ("Task failed")), 1)
    | CheckOutcome.ok TaskStatus.pending =>
      let r := pollAux check res (attempts + 1) remaining
      (r.1, r.2 + 1)

/-- pollTaskStatus with an explicit attempt bound. -/
def pollTaskStatus (check : Nat → CheckOutcome) (res : α)
    (maxAttempts : Nat) : PollResult α × Nat :=
  pollAux check res 0 maxAttempts

/-- The default maxAttempts parameter value. -/
def defaultMaxAttempts : Nat := 100

/-- The default interval parameter value (milliseconds waited between
attempts). -/
def defaultIntervalMs : Nat := 3000

/-- pollTaskStatus as called with the defaults. -/
def pollTaskStatusDefault (check : Nat → CheckOutcome) (res : α) :
    PollResult α × Nat :=
  pollTaskStatus check res defaultMaxAttempts

/-! ## Sample values used by the witness theorems -/

/-- A fixed calendar instant. -/
def sampleDate : DateTime :=
  { year := 2026, month := 10, day := 11, hour := 3, minute := 4,
    second := 5, millis := 678 }

/-- An engine whose pipeline succeeds. -/
def sampleEngine : FFmpegEngine :=
  { execOutcome := Except.ok (), outputBytes := [7, 7, 7] }

/-- An engine whose pipeline raises. -/
def failingEngine : FFmpegEngine :=
  { execOutcome := Except.error ("boom"), outputBytes := [] }

/-- A session in the middle of a recording. -/
def sampleStartedSession : Session :=
  { initialSession with
      isConnected := true
      isRecording := true
      recorderPhase := some RecorderPhase.recording
      intervalActive := true
      startTime := 100 }

/-! ## Claim C1 -/

/-- Claim C1 as stated is false on the code: transcode jobs 0 and 1 are
distinct jobs, yet createVideoBlob gives both the identical virtual
filename pair (the literals input.webm and output.mp4). -/
theorem C1_counterexample :
    jobVfsFilenames 0 = jobVfsFilenames 1 ∧ (0 : Nat) ≠ 1 := by
  decide

/-- Claim C1 (amended): every transcode job uses the same fixed
input/output filename pair in the codec engine virtual filesystem, and a
createVideoBlob run only ever writes that input name and reads that output
name; re-entry reuses (overwrites) the names rather than picking fresh
ones. -/
theorem C1_amended_thm : ∀ (i j : Nat) (ffmpeg : Option FFmpegEngine)
    (loaded : Bool) (now : DateTime) (s : Session),
    jobVfsFilenames i = jobVfsFilenames j ∧
    ((createVideoBlob ffmpeg loaded now s).vfsWrites.map Prod.fst).all
      (fun n => n == (jobVfsFilenames i).1) = true ∧
    ((createVideoBlob ffmpeg loaded now s).vfsReads).all
      (fun n => n == (jobVfsFilenames i).2) = true := by
  intro i j ffmpeg loaded now s
  refine ⟨rfl, ?_, ?_⟩ <;>
  · rcases ffmpeg with _ | engine
    · simp [createVideoBlob]
    · cases loaded
      · simp [createVideoBlob]
      · rcases hE : engine.execOutcome with m | u <;>
          simp [createVideoBlob, hE, jobVfsFilenames, inputFilename, outputFilename]

/-! ## Claim C3 -/

/-- Claim C3: on a successful job the transcode performs exactly one exec
call, with the fixed H.264 / preset fast / CRF 23 / AAC 128k / MP4
pipeline, and the resulting output file is read back into the download
blob. -/
theorem C3_fixed_pipeline : ∀ (engine : FFmpegEngine) (now : DateTime)
    (s : Session), engine.execOutcome = Except.ok () →
    (createVideoBlob (some engine) true now s).execCalls =
      [["-i", "input.webm", "-c:v", "libx264", "-preset", "fast",
        "-crf", "23", "-c:a", "aac", "-b:a", "128k", "output.mp4"]] ∧
    (createVideoBlob (some engine) true now s).vfsReads = [outputFilename] ∧
    (createVideoBlob (some engine) true now s).session.downloadUrl =
      some engine.outputBytes ∧
    (createVideoBlob (some engine) true now s).session.conversionStatus =
      "MP4 video ready for download!" := by
  intro engine now s h
  refine ⟨?_, ?_, ?_, ?_⟩ <;> simp [createVideoBlob, h, ffmpegArgs]

/-- Witness for C3 at a concrete engine, date and session. -/
theorem C3_witness :
    (createVideoBlob (some sampleEngine) true sampleDate initialSession).execCalls =
      [["-i", "input.webm", "-c:v", "libx264", "-preset", "fast",
        "-crf", "23", "-c:a", "aac", "-b:a", "128k", "output.mp4"]] ∧
    (createVideoBlob (some sampleEngine) true sampleDate initialSession).vfsReads =
      [outputFilename] ∧
    (createVideoBlob (some sampleEngine) true sampleDate initialSession).session.downloadUrl =
      some sampleEngine.outputBytes ∧
    (createVideoBlob (some sampleEngine) true sampleDate initialSession).session.conversionStatus =
      "MP4 video ready for download!" :=
  C3_fixed_pipeline sampleEngine sampleDate initialSession rfl

/-! ## Claim C7 -/

/-- Claim C7: when the engine is absent, not loaded, or its pipeline
raises, the error is caught, the terminal user-facing error status is set,
no download blob or filename is produced, and at most the one original
exec call was attempted (no retry). -/
theorem C7_failure_terminal : ∀ (ffmpeg : Option FFmpegEngine)
    (loaded : Bool) (now : DateTime) (s : Session),
    (ffmpeg = none ∨ loaded = false ∨
      ∃ engine msg, ffmpeg = some engine ∧
        engine.execOutcome = Except.error msg) →
    (createVideoBlob ffmpeg loaded now s).session.conversionStatus =
      "Error converting video. Please try again." ∧
    (createVideoBlob ffmpeg loaded now s).session.downloadUrl = s.downloadUrl ∧
    (createVideoBlob ffmpeg loaded now s).session.downloadFilename =
      s.downloadFilename ∧
    (createVideoBlob ffmpeg loaded now s).execCalls.length ≤ 1 := by
  intro ffmpeg loaded now s hfail
  rcases hfail with h | h | ⟨engine, msg, hfo, hE⟩
  · subst h; simp [createVideoBlob]
  · subst h
    rcases ffmpeg with _ | engine <;> simp [createVideoBlob]
  · subst hfo
    cases loaded <;> simp [createVideoBlob, hE]

/-- Witness for C7 with no engine present. -/
theorem C7_witness :
    (createVideoBlob none true sampleDate initialSession).session.conversionStatus =
      "Error converting video. Please try again." ∧
    (createVideoBlob none true sampleDate initialSession).session.downloadUrl =
      initialSession.downloadUrl ∧
    (createVideoBlob none true sampleDate initialSession).session.downloadFilename =
      initialSession.downloadFilename ∧
    (createVideoBlob none true sampleDate initialSession).execCalls.length ≤ 1 :=
  C7_failure_terminal none true sampleDate initialSession (Or.inl rfl)

/-! ## Claim C9 -/

/-- Claim C9: every inbound message increments the frame counter by
exactly one, and the counter is the only component state handleFrame
touches, so the increment happens whether or not the payload decodes in
any of the tried formats. -/
theorem C9_frame_counter : ∀ (decode : String → Option (ℚ × ℚ))
    (s : Session) (c : Canvas) (payload : String),
    ((handleFrame decode s c payload).1).frameCount = s.frameCount + 1 ∧
    (handleFrame decode s c payload).1 =
      { s with frameCount := s.frameCount + 1 } := by
  intro decode s c payload
  exact ⟨rfl, rfl⟩

/-! ## Claim C4 -/

/-- Claim C4 as stated is false on the code: at 1900 ms of elapsed wall
time the display shows 00:01 (the code truncates with floor), while the
nearest second is 2, i.e. 00:02. -/
theorem C4_counterexample :
    (updateRecordingTime 2000 sampleStartedSession).recordingTime = "00:01" ∧
    specNearestSecondDisplay (2000 - 100) = "00:02" ∧
    ("00:01" : String) ≠ "00:02" := by
  decide

/-- Claim C4 (amended): the recording-time display equals the elapsed wall
time since start rounded DOWN to the whole second, formatted MM:SS with
zero-padded fields; updateRecordingTime renders exactly that for the
elapsed time, and stop() clears the interval timer so the display stops
advancing. -/
theorem C4_amended_thm : ∀ (ms nowMs : Nat) (s : Session),
    recordingTimeDisplay ms =
      padStart2 (toString (ms / 1000 / 60)) ++ ":" ++
      padStart2 (toString (ms / 1000 % 60)) ∧
    (s.startTime ≠ 0 →
      (updateRecordingTime nowMs s).recordingTime =
        recordingTimeDisplay (nowMs - s.startTime)) ∧
    (s.isRecording = true →
      (stopRecording s).intervalActive = false ∧
      (stopRecording s).isRecording = false) := by
  intro ms nowMs s
  refine ⟨?_, ?_, ?_⟩
  · have h1 : ms / 60000 = ms / 1000 / 60 := by omega
    have h2 : ms % 60000 / 1000 = ms / 1000 % 60 := by omega
    unfold recordingTimeDisplay
    rw [h1, h2]
  · intro h
    simp [updateRecordingTime, h]
  · intro h
    simp [stopRecording, h]

/-- Witness for the amended C4 at 61900 ms elapsed and a concrete session. -/
theorem C4_amended_witness :
    recordingTimeDisplay 61900 =
      padStart2 (toString (61900 / 1000 / 60)) ++ ":" ++
      padStart2 (toString (61900 / 1000 % 60)) ∧
    (updateRecordingTime 2000 sampleStartedSession).recordingTime =
      recordingTimeDisplay (2000 - sampleStartedSession.startTime) ∧
    ((stopRecording sampleStartedSession).intervalActive = false ∧
      (stopRecording sampleStartedSession).isRecording = false) := by
  have h := C4_amended_thm 61900 2000 sampleStartedSession
  exact ⟨h.1, h.2.1 (by decide), h.2.2 rfl⟩

/-! ## Claim C6 -/

/-- Claim C6: stop() while not recording leaves the session unchanged;
stop() while recording leaves the recording state, clears the timer,
finalizes the encoder, and the asynchronous encoder flush appends the last
buffered chunk before completion triggers blob creation (the conversion
panel opens on the post-flush state). -/
theorem C6_stop_idempotent_finalize : ∀ (s : Session),
    (s.isRecording = false → stopRecording s = s) ∧
    (s.isRecording = true →
      (stopRecording s).isRecording = false ∧
      (stopRecording s).intervalActive = false ∧
      (s.recorderPhase = some RecorderPhase.recording →
        (stopRecording s).recorderPhase = some RecorderPhase.stopping) ∧
      (∀ (ffmpeg : Option FFmpegEngine) (loaded : Bool) (now : DateTime)
          (c : Nat), 0 < c →
        (encoderStopFlush ffmpeg loaded now (stopRecording s) c).session.recordedChunks =
          (stopRecording s).recordedChunks ++ [c] ∧
        (encoderStopFlush ffmpeg loaded now (stopRecording s) c).session.showDownload =
          true)) := by
  intro s
  constructor
  · intro h
    simp [stopRecording, h]
  · intro h
    refine ⟨?_, ?_, ?_, ?_⟩
    · simp [stopRecording, h]
    · simp [stopRecording, h]
    · intro hp
      simp [stopRecording, h, hp]
    · intro ffmpeg loaded now c hc
      constructor
      · rcases ffmpeg with _ | engine
        · simp [encoderStopFlush, createVideoBlob, onDataAvailable, hc,
            updateFileSize]
        · cases loaded
          · simp [encoderStopFlush, createVideoBlob, onDataAvailable, hc,
              updateFileSize]
          · rcases hE : engine.execOutcome with m | u <;>
              simp [encoderStopFlush, createVideoBlob, onDataAvailable, hc,
                updateFileSize, hE]
      · rcases ffmpeg with _ | engine
        · simp [encoderStopFlush, createVideoBlob, onDataAvailable, hc,
            updateFileSize]
        · cases loaded
          · simp [encoderStopFlush, createVideoBlob, onDataAvailable, hc,
              updateFileSize]
          · rcases hE : engine.execOutcome with m | u <;>
              simp [encoderStopFlush, createVideoBlob, onDataAvailable, hc,
                updateFileSize, hE]

/-- Witness for C6: the idle session is untouched by stop(), and stopping
a live recording flushes a final 5-byte chunk into the buffer before the
conversion panel opens. -/
theorem C6_witness :
    stopRecording initialSession = initialSession ∧
    (stopRecording sampleStartedSession).isRecording = false ∧
    (encoderStopFlush (some sampleEngine) true sampleDate
        (stopRecording sampleStartedSession) 5).session.recordedChunks =
      (stopRecording sampleStartedSession).recordedChunks ++ [5] ∧
    (encoderStopFlush (some sampleEngine) true sampleDate
        (stopRecording sampleStartedSession) 5).session.showDownload = true := by
  have h1 := C6_stop_idempotent_finalize initialSession
  have h2 := C6_stop_idempotent_finalize sampleStartedSession
  have h3 := (h2.2 rfl).2.2.2 (some sampleEngine) true sampleDate 5 (by decide)
  exact ⟨h1.1 rfl, (h2.2 rfl).1, h3.1, h3.2⟩

/-! ## Claim C8 -/

/-- No decimal (or hexadecimal) digit character is a colon, so the colon
replacement in the filename leaves digits alone. -/
theorem digitChar_ne_colon (n : Nat) : Nat.digitChar n ≠ ':' := by
  match n with
  | 0 | 1 | 2 | 3 | 4 | 5 | 6 | 7 | 8 | 9 | 10 | 11 | 12 | 13 | 14 | 15 =>
    decide
  | n + 16 =>
    simp [Nat.digitChar]

/-- The timestamp in the download filename: the first 19 characters of the
ISO string with each colon turned into a dash, in explicit
year-month-day-T-hour-minute-second form. -/
theorem isoTimestampChars (d : DateTime) :
    ((toISOChars d).take 19).map colonToDash =
      pad4ch d.year ++ '-' :: pad2ch d.month ++ '-' :: pad2ch d.day ++
      'T' :: pad2ch d.hour ++ '-' :: pad2ch d.minute ++ '-' :: pad2ch d.second := by
  have h : (toISOChars d).take 19 =
      pad4ch d.year ++ '-' :: pad2ch d.month ++ '-' :: pad2ch d.day ++
      'T' :: pad2ch d.hour ++ ':' :: pad2ch d.minute ++ ':' :: pad2ch d.second := rfl
  rw [h]
  simp [pad4ch, pad2ch, colonToDash, digitChar_ne_colon]

/-- Claim C8: a successful transcode sets the download filename exactly
once, to the recorded_video_ prefix, the ISO-8601-derived timestamp of the
completion instant with dashes for colons, and the .mp4 extension; and the
filename is untouched by the download click, so it stays stable for the
life of the link. -/
theorem C8_filename_once_stable : ∀ (engine : FFmpegEngine) (now : DateTime)
    (s : Session), engine.execOutcome = Except.ok () →
    (createVideoBlob (some engine) true now s).session.downloadFilename =
      recordedVideoFilename now ∧
    recordedVideoFilename now =
      String.mk (("recorded_video_").data ++
        (pad4ch now.year ++ '-' :: pad2ch now.month ++ '-' :: pad2ch now.day ++
         'T' :: pad2ch now.hour ++ '-' :: pad2ch now.minute ++
         '-' :: pad2ch now.second) ++ (".mp4").data) ∧
    (downloadVideo (createVideoBlob (some engine) true now s).session).1.downloadFilename =
      recordedVideoFilename now := by
  intro engine now s h
  refine ⟨?_, ?_, ?_⟩
  · simp [createVideoBlob, h]
  · unfold recordedVideoFilename
    rw [isoTimestampChars]
  · simp [downloadVideo, createVideoBlob, h]

/-- Witness for C8 at a concrete engine, date and session. -/
theorem C8_witness :
    (createVideoBlob (some sampleEngine) true sampleDate initialSession).session.downloadFilename =
      recordedVideoFilename sampleDate ∧
    recordedVideoFilename sampleDate =
      String.mk (("recorded_video_").data ++
        (pad4ch sampleDate.year ++ '-' :: pad2ch sampleDate.month ++
         '-' :: pad2ch sampleDate.day ++ 'T' :: pad2ch sampleDate.hour ++
         '-' :: pad2ch sampleDate.minute ++ '-' :: pad2ch sampleDate.second) ++
        (".mp4").data) ∧
    (downloadVideo (createVideoBlob (some sampleEngine) true sampleDate
        initialSession).session).1.downloadFilename =
      recordedVideoFilename sampleDate :=
  C8_filename_once_stable sampleEngine sampleDate initialSession rfl

/-! ## Claim C5 -/

/-- The state at the start of a second recording session: connect, record
one 1 MiB chunk, stop, then start again. -/
def secondSessionStart : Session :=
  startRecording 5000 true true
    (stopRecording (processChunks
      (startRecording 0 true true { initialSession with isConnected := true })
      [1048576]))

/-- Claim C5 as stated is false on the code: at the start of the second
recording session the chunk buffer is empty (sum 0 bytes), yet the display
still shows the previous session value 1.00 MB instead of 0.00 MB, because
startRecording clears the buffer without resetting the display. -/
theorem C5_counterexample :
    secondSessionStart.recordedChunks = [] ∧
    secondSessionStart.fileSize = "1.00 MB" ∧
    toFixed2MB (sumChunks secondSessionStart.recordedChunks) ++ " MB" =
      "0.00 MB" ∧
    ("1.00 MB" : String) ≠ "0.00 MB" := by
  decide

/-- Claim C5 (amended): after each buffered chunk the display equals the
sum of all buffered chunk sizes converted to megabytes with exactly two
decimal places; chunks of size zero are dropped without an update, and
before the first nonzero chunk of a session the display retains its
previous value. -/
theorem C5_amended_thm : ∀ (s : Session) (sizes : List Nat),
    (processChunks s sizes).recordedChunks =
      s.recordedChunks ++ sizes.filter (fun c => decide (0 < c)) ∧
    (processChunks s sizes).fileSize =
      (if sizes.filter (fun c => decide (0 < c)) = [] then s.fileSize
       else toFixed2MB (sumChunks (s.recordedChunks ++
              sizes.filter (fun c => decide (0 < c)))) ++ " MB") := by
  intro s sizes
  induction sizes generalizing s with
  | nil => simp [processChunks]
  | cons c cs ih =>
    by_cases hc : 0 < c
    · have hstep : processChunks s (c :: cs) =
          processChunks
            (updateFileSize { s with recordedChunks := s.recordedChunks ++ [c] })
            cs := by
        simp [processChunks, onDataAvailable, hc]
      have h := ih (updateFileSize { s with recordedChunks := s.recordedChunks ++ [c] })
      rw [hstep]
      constructor
      · rw [h.1]
        simp [updateFileSize, hc, List.filter_cons]
      · rw [h.2]
        rcases hcs : cs.filter (fun c => decide (0 < c)) with _ | ⟨d, ds⟩
        · simp [updateFileSize, hc, List.filter_cons, hcs]
        · simp [updateFileSize, hc, List.filter_cons, hcs]
    · have hstep : processChunks s (c :: cs) = processChunks s cs := by
        simp [processChunks, onDataAvailable, hc]
      rw [hstep]
      have h := ih s
      simpa [List.filter_cons, hc] using h

/-! ## Claim C2 -/

/-- Geometry of the drawImage rectangle on the 300 by 300 canvas: aspect
ratio preserved, contained in the canvas, and centred (equal margins on
both sides of each axis). -/
theorem paintRect_geometry (w h : ℚ) (hw : 0 < w) (hh : 0 < h) :
    (paintRect videoCanvasWidth videoCanvasHeight w h).w * h =
      (paintRect videoCanvasWidth videoCanvasHeight w h).h * w ∧
    0 < (paintRect videoCanvasWidth videoCanvasHeight w h).w ∧
    (paintRect videoCanvasWidth videoCanvasHeight w h).w ≤ videoCanvasWidth ∧
    0 < (paintRect videoCanvasWidth videoCanvasHeight w h).h ∧
    (paintRect videoCanvasWidth videoCanvasHeight w h).h ≤ videoCanvasHeight ∧
    2 * (paintRect videoCanvasWidth videoCanvasHeight w h).x +
      (paintRect videoCanvasWidth videoCanvasHeight w h).w = videoCanvasWidth ∧
    2 * (paintRect videoCanvasWidth videoCanvasHeight w h).y +
      (paintRect videoCanvasWidth videoCanvasHeight w h).h = videoCanvasHeight := by
  have hw' : w ≠ 0 := ne_of_gt hw
  have hh' : h ≠ 0 := ne_of_gt hh
  have hr0 : 0 < w / h := div_pos hw hh
  simp only [paintRect, videoCanvasWidth, videoCanvasHeight]
  by_cases hr : w / h > 1
  · simp only [hr, if_pos]
    refine ⟨?_, ?_, ?_, ?_, ?_, ?_, ?_⟩
    · field_simp
    · norm_num
    · norm_num
    · positivity
    · rw [div_le_iff₀ hr0]
      nlinarith
    · ring
    · ring
  · simp only [hr, if_neg, if_false]
    have hr1 : w / h ≤ 1 := not_lt.mp hr
    refine ⟨?_, ?_, ?_, ?_, ?_, ?_, ?_⟩
    · field_simp
    · positivity
    · nlinarith
    · norm_num
    · norm_num
    · ring
    · ring

/-- Claim C2: each inbound frame payload is decoded by trying bitmap, then
JPEG, then PNG, stopping at the first success; the decoded image is
painted into the centred, aspect-preserving, canvas-contained rectangle;
when all three fail the failure is only logged (the returned flag), the
canvas is left unchanged, and the frame counter increment is the only
component-state change, so no error counter moves and the channel keeps
running. -/
theorem C2_decode_paint_fallback : ∀ (decode : String → Option (ℚ × ℚ))
    (s : Session) (c : Canvas) (payload : String),
    (∀ w h, decode ("data:image/bmp;base64," ++ payload) = some (w, h) →
      drawFrame decode c payload =
        ({ c with painted := some ("data:image/bmp;base64," ++ payload,
            paintRect c.width c.height w h) }, false)) ∧
    (∀ w h, decode ("data:image/bmp;base64," ++ payload) = none →
      decode ("data:image/jpeg;base64," ++ payload) = some (w, h) →
      drawFrame decode c payload =
        ({ c with painted := some ("data:image/jpeg;base64," ++ payload,
            paintRect c.width c.height w h) }, false)) ∧
    (∀ w h, decode ("data:image/bmp;base64," ++ payload) = none →
      decode ("data:image/jpeg;base64," ++ payload) = none →
      decode ("data:image/png;base64," ++ payload) = some (w, h) →
      drawFrame decode c payload =
        ({ c with painted := some ("data:image/png;base64," ++ payload,
            paintRect c.width c.height w h) }, false)) ∧
    (decode ("data:image/bmp;base64," ++ payload) = none →
      decode ("data:image/jpeg;base64," ++ payload) = none →
      decode ("data:image/png;base64," ++ payload) = none →
      drawFrame decode c payload = (c, true)) ∧
    (handleFrame decode s c payload).1 =
      { s with frameCount := s.frameCount + 1 } ∧
    (∀ w h : ℚ, 0 < w → 0 < h →
      (paintRect videoCanvasWidth videoCanvasHeight w h).w * h =
        (paintRect videoCanvasWidth videoCanvasHeight w h).h * w ∧
      0 < (paintRect videoCanvasWidth videoCanvasHeight w h).w ∧
      (paintRect videoCanvasWidth videoCanvasHeight w h).w ≤ videoCanvasWidth ∧
      0 < (paintRect videoCanvasWidth videoCanvasHeight w h).h ∧
      (paintRect videoCanvasWidth videoCanvasHeight w h).h ≤ videoCanvasHeight ∧
      2 * (paintRect videoCanvasWidth videoCanvasHeight w h).x +
        (paintRect videoCanvasWidth videoCanvasHeight w h).w = videoCanvasWidth ∧
      2 * (paintRect videoCanvasWidth videoCanvasHeight w h).y +
        (paintRect videoCanvasWidth videoCanvasHeight w h).h = videoCanvasHeight) := by
  intro decode s c payload
  refine ⟨?_, ?_, ?_, ?_, rfl, ?_⟩
  · intro w h hbmp
    simp [drawFrame, tryFormats, frameFormats, hbmp]
  · intro w h hbmp hjpeg
    simp [drawFrame, tryFormats, frameFormats, hbmp, hjpeg]
  · intro w h hbmp hjpeg hpng
    simp [drawFrame, tryFormats, frameFormats, hbmp, hjpeg, hpng]
  · intro hbmp hjpeg hpng
    simp [drawFrame, tryFormats, frameFormats, hbmp, hjpeg, hpng]
  · intro w h hw hh
    exact paintRect_geometry w h hw hh

/-- A decoder that accepts only the PNG interpretation of the payload. -/
def sampleDecode : String → Option (ℚ × ℚ) :=
  fun src => if src = "data:image/png;base64,QUJD" then some (3, 4) else none

/-- An untouched 300 by 300 canvas. -/
def sampleCanvas : Canvas :=
  { width := 300, height := 300, painted := none }

/-- Witness for C2: the PNG fallback fires on a payload only PNG decodes,
painting it, and the geometry facts hold at a 3:4 portrait image. -/
theorem C2_witness :
    drawFrame sampleDecode sampleCanvas "QUJD" =
      ({ sampleCanvas with painted := some ("data:image/png;base64," ++ "QUJD",
          paintRect sampleCanvas.width sampleCanvas.height 3 4) }, false) ∧
    (handleFrame sampleDecode initialSession sampleCanvas "QUJD").1 =
      { initialSession with frameCount := initialSession.frameCount + 1 } ∧
    0 < (paintRect videoCanvasWidth videoCanvasHeight 3 4).w ∧
    (paintRect videoCanvasWidth videoCanvasHeight 3 4).w ≤ videoCanvasWidth ∧
    2 * (paintRect videoCanvasWidth videoCanvasHeight 3 4).x +
      (paintRect videoCanvasWidth videoCanvasHeight 3 4).w = videoCanvasWidth := by
  have h := C2_decode_paint_fallback sampleDecode initialSession sampleCanvas "QUJD"
  have hdraw := h.2.2.1 3 4 (by decide) (by decide) (by decide)
  have hgeom := h.2.2.2.2.2 3 4 (by norm_num) (by norm_num)
  exact ⟨hdraw, h.2.2.2.2.1, hgeom.2.1, hgeom.2.2.1, hgeom.2.2.2.2.2.1⟩

/-! ## Claim C10 -/

/-- The outcome a single checkStatus result forces: everything except a
pending status ends the loop with the corresponding return or throw. -/
def decisive (res : α) : CheckOutcome → Option (PollResult α)
  | CheckOutcome.http404 => some PollResult.taskNotFound
  | CheckOutcome.otherError m => some (PollResult.otherError m)
  | CheckOutcome.ok TaskStatus.completed => some (PollResult.success res)
  | CheckOutcome.ok (TaskStatus.failed e) =>
    some (PollResult.taskFailed (e.getD ("Task failed")))
  | CheckOutcome.ok TaskStatus.pending => none

/-- The loop performs at most as many status checks as it has attempts
left. -/
theorem pollAux_count_le (check : Nat → CheckOutcome) (res : α) :
    ∀ (remaining attempts : Nat),
      (pollAux check res attempts remaining).2 ≤ remaining := by
  intro remaining
  induction remaining with
  | zero => intro a; simp [pollAux]
  | succ n ih =>
    intro a
    unfold pollAux
    cases h : check a with
    | ok st =>
      cases st with
      | pending =>
        simp only []
        exact Nat.succ_le_succ (ih (a + 1))
      | completed => simp
      | failed e => simp
    | http404 => simp
    | otherError m => simp

/-- When every consulted status is pending, the loop runs out of attempts
and times out after exactly that many checks. -/
theorem pollAux_all_pending (check : Nat → CheckOutcome) (res : α) :
    ∀ (remaining attempts : Nat),
      (∀ k, k < remaining → check (attempts + k) = CheckOutcome.ok TaskStatus.pending) →
      pollAux check res attempts remaining = (PollResult.timedOut, remaining) := by
  intro remaining
  induction remaining with
  | zero => intro a _; simp [pollAux]
  | succ n ih =>
    intro a hp
    have h0 : check a = CheckOutcome.ok TaskStatus.pending := by
      have := hp 0 (Nat.succ_pos n)
      simpa using this
    have hrec := ih (a + 1) (fun k hk => by
      have := hp (k + 1) (Nat.succ_lt_succ hk)
      have harith : a + (k + 1) = a + 1 + k := by omega
      rw [harith] at this
      exact this)
    unfold pollAux
    rw [h0]
    simp [hrec]

/-- When the statuses before step k are pending and the status at step k
is decisive, the loop ends there with the forced outcome after k + 1
checks. -/
theorem pollAux_decisive (check : Nat → CheckOutcome) (res : α) :
    ∀ (remaining k attempts : Nat) (pr : PollResult α),
      k < remaining →
      (∀ j, j < k → check (attempts + j) = CheckOutcome.ok TaskStatus.pending) →
      decisive res (check (attempts + k)) = some pr →
      pollAux check res attempts remaining = (pr, k + 1) := by
  intro remaining
  induction remaining with
  | zero => intro k a pr hk; omega
  | succ n ih =>
    intro k a pr hk hpend hdec
    cases k with
    | zero =>
      simp only [Nat.add_zero] at hdec
      unfold pollAux
      cases h : check a with
      | ok st =>
        cases st with
        | pending => rw [h] at hdec; simp [decisive] at hdec
        | completed =>
          rw [h] at hdec
          simp [decisive] at hdec
          simp [hdec]
        | failed e =>
          rw [h] at hdec
          simp [decisive] at hdec
          simp [hdec]
      | http404 =>
        rw [h] at hdec
        simp [decisive] at hdec
        simp [hdec]
      | otherError m =>
        rw [h] at hdec
        simp [decisive] at hdec
        simp [hdec]
    | succ k' =>
      have h0 : check a = CheckOutcome.ok TaskStatus.pending := by
        have := hpend 0 (Nat.succ_pos k')
        simpa using this
      have hpend' : ∀ j, j < k' → check (a + 1 + j) = CheckOutcome.ok TaskStatus.pending := by
        intro j hj
        have := hpend (j + 1) (Nat.succ_lt_succ hj)
        have harith : a + (j + 1) = a + 1 + j := by omega
        rw [harith] at this
        exact this
      have hdec' : decisive res (check (a + 1 + k')) = some pr := by
        have harith : a + (k' + 1) = a + 1 + k' := by omega
        rw [harith] at hdec
        exact hdec
      have hrec := ih k' (a + 1) pr (Nat.lt_of_succ_lt_succ hk) hpend' hdec'
      unfold pollAux
      rw [h0]
      simp [hrec]

/-- Claim C10: pollTaskStatus performs at most maxAttempts status checks
(the defaults are 100 attempts and a fixed 3000 ms interval) and always
terminates: all-pending streams end in the polling-timed-out error after
exactly maxAttempts checks, and the first non-pending status ends the loop
at once, resolving with the result on completed and throwing on failed or
on an HTTP 404. -/
theorem C10_poll_bounded_terminates : ∀ {α : Type} (check : Nat → CheckOutcome)
    (res : α) (m : Nat),
    (pollTaskStatus check res m).2 ≤ m ∧
    pollTaskStatusDefault check res = pollTaskStatus check res 100 ∧
    defaultIntervalMs = 3000 ∧
    ((∀ k, k < m → check k = CheckOutcome.ok TaskStatus.pending) →
      pollTaskStatus check res m = (PollResult.timedOut, m)) ∧
    (∀ k, k < m →
      (∀ j, j < k → check j = CheckOutcome.ok TaskStatus.pending) →
      (check k = CheckOutcome.ok TaskStatus.completed →
        pollTaskStatus check res m = (PollResult.success res, k + 1)) ∧
      (∀ e, check k = CheckOutcome.ok (TaskStatus.failed e) →
        pollTaskStatus check res m =
          (PollResult.taskFailed (e.getD ("Task failed")), k + 1)) ∧
      (check k = CheckOutcome.http404 →
        pollTaskStatus check res m = (PollResult.taskNotFound, k + 1))) := by
  intro α check res m
  refine ⟨pollAux_count_le check res m 0, rfl, rfl, ?_, ?_⟩
  · intro hp
    exact pollAux_all_pending check res m 0 (fun k hk => by
      have := hp k hk
      simpa using this)
  · intro k hk hpend
    have hpend0 : ∀ j, j < k → check (0 + j) = CheckOutcome.ok TaskStatus.pending := by
      intro j hj
      simpa using hpend j hj
    refine ⟨?_, ?_, ?_⟩
    · intro hc
      exact pollAux_decisive check res m k 0 _ hk hpend0
        (by simpa [decisive] using congrArg (decisive res) (by simpa using hc))
    · intro e hc
      exact pollAux_decisive check res m k 0 _ hk hpend0
        (by simpa [decisive] using congrArg (decisive res) (by simpa using hc))
    · intro hc
      exact pollAux_decisive check res m k 0 _ hk hpend0
        (by simpa [decisive] using congrArg (decisive res) (by simpa using hc))

/-- A status stream that is pending twice and then completed. -/
def sampleCheck : Nat → CheckOutcome :=
  fun k => if k < 2 then CheckOutcome.ok TaskStatus.pending
           else CheckOutcome.ok TaskStatus.completed

/-- Witness for C10: on the sample stream with a 10-attempt bound, the
loop checks three times and resolves with the result. -/
theorem C10_witness :
    (pollTaskStatus sampleCheck (42 : Nat) 10).2 ≤ 10 ∧
    pollTaskStatus sampleCheck (42 : Nat) 10 =
      (PollResult.success 42, 2 + 1) := by
  have h := C10_poll_bounded_terminates sampleCheck (42 : Nat) 10
  have hstep := (h.2.2.2.2 2 (by decide) (by decide)).1 (by decide)
  exact ⟨h.1, hstep⟩

end ThirteenLabs
